import Mathlib

/-!
Shallow embedding of the asteroid-survival game `src/index.js`.

Numbers are modelled as rationals.  Transcendental operations
(`Math.PI`, `Math.cos`, `Math.sin`) only ever feed entity headings and
displacement components, never control flow, so the whole model is
parametrised by a `JsMath` record carrying those functions; every theorem
quantifies over it.  Each `Math.random()` draw is an explicit rational
parameter in `[0,1)`.  `localStorage` holds at most the single key
`bestTime`, modelled as `Option StoredVal`.
-/

namespace AsteroidsGame

/-! ### Game constants (src/index.js lines 14-19) -/

def ASTEROIDS_ON_SCREEN : ℚ := 10

def ASTEROIDS_OVER_TIME : ℚ := 3 / 10

def ASTEROID_SPEED : ℚ := 3

def STAR_COUNT : ℚ := 100

def STAR_SPEED : ℚ := 1 / 10

def PLAYER_SPEED : ℚ := 5

/-! ### Opaque host math: pi, cos, sin are parameters of the model -/

structure JsMath where
  pi : ℚ
  cos : ℚ → ℚ
  sin : ℚ → ℚ

/-! ### SpaceObject (lines 22-78) -/

structure SpaceObject where
  x : ℚ
  y : ℚ
  width : ℚ
  height : ℚ
  color : String
deriving DecidableEq

/-- `SpaceObject.intersects` (lines 55-67): strict AABB overlap test. -/
def SpaceObject.intersects (a b : SpaceObject) : Bool :=
  let x1 := a.x - a.width / 2
  let y1 := a.y - a.height / 2
  let x2 := a.x + a.width / 2
  let y2 := a.y + a.height / 2
  let x3 := b.x - b.width / 2
  let y3 := b.y - b.height / 2
  let x4 := b.x + b.width / 2
  let y4 := b.y + b.height / 2
  decide (x1 < x4) && decide (x3 < x2) && decide (y1 < y4) && decide (y3 < y2)

/-- The four booleans returned by `outOfBounds` (lines 70-77), in array
order `[0] = exceedsRight, [1] = exceedsLeft, [2] = exceedsBottom,
[3] = exceedsTop`. -/
structure OobFlags where
  exceedsRight : Bool
  exceedsLeft : Bool
  exceedsBottom : Bool
  exceedsTop : Bool
deriving DecidableEq

/-- `SpaceObject.outOfBounds` (lines 70-77). -/
def SpaceObject.outOfBounds (o : SpaceObject) (canvasWidth canvasHeight : ℚ) :
    OobFlags where
  exceedsRight := decide (o.x > canvasWidth + o.width)
  exceedsLeft := decide (o.x < 0 - o.width)
  exceedsBottom := decide (o.y > canvasHeight + o.height)
  exceedsTop := decide (o.y < 0 - o.height)

/-- `flags.some (val => val)` as used by the pruning filters (lines 439-440). -/
def OobFlags.someTrue (f : OobFlags) : Bool :=
  f.exceedsRight || f.exceedsLeft || f.exceedsBottom || f.exceedsTop

/-! ### Star (lines 81-105) -/

structure Star extends SpaceObject where
  speed : ℚ
  dx : ℚ
  dy : ℚ
  angle : ℚ
deriving DecidableEq

/-- `new Star(x, y, width, height, color, speed)` with
`angle = Math.random() * Math.PI * 2` (lines 82-88); `randAngle` is the
`Math.random()` draw. -/
def mkStar (env : JsMath) (x y width height : ℚ) (color : String) (speed : ℚ)
    (randAngle : ℚ) : Star :=
  { x := x, y := y, width := width, height := height, color := color,
    speed := speed, dx := 0, dy := 0, angle := randAngle * env.pi * 2 }

/-- `Star.update` (lines 99-104), drawing omitted. -/
def Star.update (env : JsMath) (s : Star) : Star :=
  { s with
    x := s.x + s.speed * env.cos s.angle
    y := s.y + s.speed * env.sin s.angle }

/-! ### Controller (lines 108-134): the four key flags read each frame -/

structure Controller where
  left : Bool
  right : Bool
  up : Bool
  down : Bool
deriving DecidableEq

/-! ### Player (lines 137-186) -/

structure Player extends SpaceObject where
  speed : ℚ
  dx : ℚ
  dy : ℚ
deriving DecidableEq

/-- `Player.chkBounds` (lines 171-185): the out-of-bounds flags are computed
once, then the four wrap assignments are applied in array order. -/
def Player.chkBounds (p : Player) (canvasWidth canvasHeight : ℚ) : Player :=
  let outOfBounds := p.toSpaceObject.outOfBounds canvasWidth canvasHeight
  let p := if outOfBounds.exceedsRight then { p with x := p.width * (-1) } else p
  let p := if outOfBounds.exceedsLeft then { p with x := canvasWidth } else p
  let p := if outOfBounds.exceedsBottom then { p with y := p.height * (-1) } else p
  let p := if outOfBounds.exceedsTop then { p with y := canvasHeight } else p
  p

/-- `Player.update` (lines 147-168), drawing omitted.  Velocity is rebuilt
from the controller flags every frame; `right` overwrites `left` and `down`
overwrites `up`. -/
def Player.update (p : Player) (ctrl : Controller) (canvasWidth canvasHeight : ℚ) :
    Player :=
  let dx : ℚ := 0
  let dy : ℚ := 0
  let dx := if ctrl.left then -p.speed else dx
  let dx := if ctrl.right then p.speed else dx
  let dy := if ctrl.up then -p.speed else dy
  let dy := if ctrl.down then p.speed else dy
  let p := { p with dx := dx, dy := dy, x := p.x + dx, y := p.y + dy }
  p.chkBounds canvasWidth canvasHeight

/-! ### Asteroid (lines 189-203) -/

structure Asteroid extends SpaceObject where
  speed : ℚ
  angle : ℚ
deriving DecidableEq

/-- `Asteroid.update` (lines 196-201), drawing omitted. -/
def Asteroid.update (env : JsMath) (a : Asteroid) : Asteroid :=
  { a with
    x := a.x + a.speed * env.cos a.angle
    y := a.y + a.speed * env.sin a.angle }

/-! ### Angle helpers (lines 206-224) -/

inductive OuterCanvasArea where
  | BOTTOM
  | TOP
  | LEFT
  | RIGHT
deriving DecidableEq

/-- `degToRad` (lines 214-216). -/
def degToRad (env : JsMath) (deg : ℚ) : ℚ :=
  deg * env.pi / 180

/-- `getRandAngle` (lines 220-224); `rand` is the `Math.random()` draw. -/
def getRandAngle (env : JsMath) (rand deg1 deg2 : ℚ) : ℚ :=
  let rad1 := degToRad env deg1
  let rad2 := degToRad env deg2
  rand * (rad2 - rad1) + rad1

/-! ### SpawnArea (lines 242-308) -/

structure SpawnArea extends SpaceObject where
  outerCanvasArea : OuterCanvasArea
deriving DecidableEq

/-- The `Math.random()` draws consumed by one `spawnAsteroid()` call, each
in `[0,1)`. -/
structure SpawnRand where
  randX : ℚ
  randY : ℚ
  randSpeed : ℚ
  randGray : ℚ
  randAngle1 : ℚ
  randAngle2 : ℚ

/-- `SpawnArea.spawnAsteroid` (lines 271-299): the new asteroid it pushes
onto the asteroid array. -/
def SpawnArea.spawnAsteroid (env : JsMath) (z : SpawnArea) (r : SpawnRand) :
    Asteroid :=
  let x := r.randX * z.width + z.x
  let y := r.randY * z.height + z.y
  let width : ℚ := 50
  let height : ℚ := 50
  let speed := r.randSpeed * ASTEROID_SPEED + 1
  let grayColor : ℤ := ⌊r.randGray * 100⌋ + 100
  let color := "rgb(" ++ toString grayColor ++ ", " ++ toString grayColor ++ ", "
    ++ toString grayColor ++ ")"
  let angle : ℚ := 0
  let angle := if z.outerCanvasArea = OuterCanvasArea.BOTTOM then
    getRandAngle env r.randAngle1 200 340 else angle
  let angle := if z.outerCanvasArea = OuterCanvasArea.TOP then
    getRandAngle env r.randAngle1 20 160 else angle
  let angle := if z.outerCanvasArea = OuterCanvasArea.LEFT then
    getRandAngle env r.randAngle1 275 360 + getRandAngle env r.randAngle2 5 80 else angle
  let angle := if z.outerCanvasArea = OuterCanvasArea.RIGHT then
    getRandAngle env r.randAngle1 95 175 + getRandAngle env r.randAngle2 5 85 else angle
  { x := x, y := y, width := width, height := height, color := color,
    speed := speed, angle := angle }

/-- `spawnAreaLeft` (line 305): `new SpawnArea(-100, 0, 101, canvas.width,
OuterCanvasArea.LEFT)`.  Note the source passes `canvas.width`, not
`canvas.height`, as the zone height. -/
def spawnAreaLeft (canvasWidth canvasHeight : ℚ) : SpawnArea :=
  { x := -100, y := 0, width := 101, height := canvasWidth, color := "white",
    outerCanvasArea := OuterCanvasArea.LEFT }

/-- `spawnAreaRight` (line 306). -/
def spawnAreaRight (canvasWidth canvasHeight : ℚ) : SpawnArea :=
  { x := canvasWidth - 1, y := 0, width := 100, height := canvasHeight,
    color := "white", outerCanvasArea := OuterCanvasArea.RIGHT }

/-- `spawnAreaTop` (line 307). -/
def spawnAreaTop (canvasWidth canvasHeight : ℚ) : SpawnArea :=
  { x := 0, y := -100, width := canvasWidth, height := 101, color := "white",
    outerCanvasArea := OuterCanvasArea.TOP }

/-- `spawnAreaBottom` (line 308). -/
def spawnAreaBottom (canvasWidth canvasHeight : ℚ) : SpawnArea :=
  { x := 0, y := canvasHeight - 1, width := canvasWidth, height := 100,
    color := "white", outerCanvasArea := OuterCanvasArea.BOTTOM }

/-! ### localStorage model -/

/-- A string stored under the `bestTime` key, abstracted to what the game
observes of it: `num v` is a string whose JS numeric coercion is the number
`v` (in particular `String(totalTime)` as written by `setItem`);
`malformed` is a nonempty string that coerces to `NaN`; `empty` is the
empty string. -/
inductive StoredVal where
  | num (v : ℚ)
  | malformed
  | empty
deriving DecidableEq

/-- JS truthiness of the stored string: every nonempty string is truthy
(`String(n)` is nonempty for every number `n`, including `0`). -/
def StoredVal.truthy : StoredVal → Bool
  | .num _ => true
  | .malformed => true
  | .empty => false

/-- The JS comparison `totalTime > bestTime` (line 347): a number compared
to a string coerces the string to a number; `NaN` makes the comparison
false; the empty string coerces to `0`. -/
def numGtStored (t : ℚ) : StoredVal → Bool
  | .num v => decide (t > v)
  | .malformed => false
  | .empty => decide (t > 0)

/-! ### Game state and the main loop (lines 321-444) -/

structure GameState where
  stars : List Star
  asteroids : List Asteroid
  player : Player
  lastTime : ℚ
  totalTime : ℚ
  gameOver : Bool
  bestTimeStorage : Option StoredVal
deriving DecidableEq

/-- The `Math.random()` draws a single running frame may consume. -/
structure FrameRand where
  zoneChoice : Fin 4
  spawn : SpawnRand
  starX : ℚ
  starY : ℚ
  starAngle : ℚ

/-- The `gameOver` branch of `gameLoop` (lines 342-359): re-read the stored
best time; if it is truthy, overwrite it only when `totalTime` compares
greater; otherwise write `totalTime` unconditionally.  Nothing else is
touched and the frame callback is not re-requested. -/
def gameOverStep (g : GameState) : GameState :=
  match g.bestTimeStorage with
  | some stored =>
      if stored.truthy then
        if numGtStored g.totalTime stored then
          { g with bestTimeStorage := some (StoredVal.num g.totalTime) }
        else g
      else { g with bestTimeStorage := some (StoredVal.num g.totalTime) }
  | none => { g with bestTimeStorage := some (StoredVal.num g.totalTime) }

/-- The `switch (rand)` of lines 404-422 choosing a spawn area. -/
def pickSpawnArea (canvasWidth canvasHeight : ℚ) (rand : Fin 4) : SpawnArea :=
  match rand with
  | 0 => spawnAreaLeft canvasWidth canvasHeight
  | 1 => spawnAreaRight canvasWidth canvasHeight
  | 2 => spawnAreaTop canvasWidth canvasHeight
  | 3 => spawnAreaBottom canvasWidth canvasHeight

/-- Lines 402-423: spawn one asteroid from a uniformly chosen area when the
asteroid count is below the growing threshold. -/
def spawnCheck (env : JsMath) (canvasWidth canvasHeight totalTime : ℚ)
    (zoneRand : Fin 4) (r : SpawnRand) (asteroids : List Asteroid) :
    List Asteroid :=
  if (asteroids.length : ℚ) <
      ASTEROIDS_ON_SCREEN + totalTime / 1000 * ASTEROIDS_OVER_TIME then
    asteroids ++ [(pickSpawnArea canvasWidth canvasHeight zoneRand).spawnAsteroid env r]
  else asteroids

/-- Lines 426-434: push one new star when the star count is below
`STAR_COUNT`. -/
def starCheck (env : JsMath) (canvasWidth canvasHeight : ℚ)
    (randX randY randAngle : ℚ) (stars : List Star) : List Star :=
  if (stars.length : ℚ) < STAR_COUNT then
    stars ++ [mkStar env (randX * canvasWidth) (randY * canvasHeight) 1 1 "white"
      STAR_SPEED randAngle]
  else stars

/-- The running branch of `gameLoop` (lines 361-443), rendering omitted:
advance the clock, move every star, asteroid and the player, run the two
replenishment checks, prune both collections by `outOfBounds`, then set
`gameOver` iff the player intersects a surviving asteroid. -/
def runningStep (env : JsMath) (canvasWidth canvasHeight : ℚ) (ctrl : Controller)
    (timeStamp : ℚ) (r : FrameRand) (g : GameState) : GameState :=
  let deltaTime := timeStamp - g.lastTime
  let lastTime := timeStamp
  let totalTime := g.totalTime + deltaTime
  let stars := g.stars.map (Star.update env)
  let asteroids := g.asteroids.map (Asteroid.update env)
  let player := g.player.update ctrl canvasWidth canvasHeight
  let asteroids := spawnCheck env canvasWidth canvasHeight totalTime
    r.zoneChoice r.spawn asteroids
  let stars := starCheck env canvasWidth canvasHeight r.starX r.starY r.starAngle stars
  let asteroids := asteroids.filter
    (fun a => !(a.toSpaceObject.outOfBounds canvasWidth canvasHeight).someTrue)
  let stars := stars.filter
    (fun s => !(s.toSpaceObject.outOfBounds canvasWidth canvasHeight).someTrue)
  let gameOver := asteroids.any
    (fun a => player.toSpaceObject.intersects a.toSpaceObject)
  { stars := stars, asteroids := asteroids, player := player,
    lastTime := lastTime, totalTime := totalTime, gameOver := gameOver,
    bestTimeStorage := g.bestTimeStorage }

/-- One invocation of `gameLoop` (lines 338-444). -/
def gameLoop (env : JsMath) (canvasWidth canvasHeight : ℚ) (ctrl : Controller)
    (timeStamp : ℚ) (r : FrameRand) (g : GameState) : GameState :=
  if g.gameOver then gameOverStep g
  else runningStep env canvasWidth canvasHeight ctrl timeStamp r g

/-- A sequence of `gameLoop` invocations with per-frame timestamps and
random draws. -/
def runFrames (env : JsMath) (canvasWidth canvasHeight : ℚ) (ctrl : Controller) :
    List (ℚ × FrameRand) → GameState → GameState
  | [], g => g
  | (t, r) :: rest, g =>
      runFrames env canvasWidth canvasHeight ctrl rest
        (gameLoop env canvasWidth canvasHeight ctrl t r g)

/-- Whether the `gameOver` branch, entered at state `g`, performs a
`localStorage.setItem` call (the write condition of lines 346-354). -/
def writesBestTime (g : GameState) : Bool :=
  match g.bestTimeStorage with
  | some stored => if stored.truthy then numGtStored g.totalTime stored else true
  | none => true

/-- Number of `setItem` calls performed along a run: the source only calls
`setItem` inside the `gameOver` branch. -/
def countBestTimeWrites (env : JsMath) (canvasWidth canvasHeight : ℚ)
    (ctrl : Controller) : List (ℚ × FrameRand) → GameState → Nat
  | [], _ => 0
  | (t, r) :: rest, g =>
      (if g.gameOver && writesBestTime g then 1 else 0) +
        countBestTimeWrites env canvasWidth canvasHeight ctrl rest
          (gameLoop env canvasWidth canvasHeight ctrl t r g)

/-! ### Concrete instances used by witnesses and counterexamples -/

/-- A concrete host-math instance (any instance works: no theorem depends
on the trigonometric values). -/
def envZero : JsMath :=
  { pi := 0, cos := fun _ => 0, sin := fun _ => 0 }

/-- All keys released. -/
def ctrlNone : Controller :=
  { left := false, right := false, up := false, down := false }

/-- Only the right key held. -/
def ctrlRight : Controller :=
  { left := false, right := true, up := false, down := false }

/-- `new Player(canvas.width / 2, canvas.height / 2, 50, 50, 'red',
PLAYER_SPEED, controller)` (line 314). -/
def playerStart (canvasWidth canvasHeight : ℚ) : Player :=
  { x := canvasWidth / 2, y := canvasHeight / 2, width := 50, height := 50,
    color := "red", speed := PLAYER_SPEED, dx := 0, dy := 0 }

/-- All random draws zero, left spawn zone chosen. -/
def frameRand0 : FrameRand :=
  { zoneChoice := 0,
    spawn := { randX := 0, randY := 0, randSpeed := 0, randGray := 0,
               randAngle1 := 0, randAngle2 := 0 },
    starX := 0, starY := 0, starAngle := 0 }

/-- A fresh running state on an 800 by 600 canvas, no entities yet. -/
def g0Running : GameState :=
  { stars := [], asteroids := [], player := playerStart 800 600,
    lastTime := 0, totalTime := 0, gameOver := false, bestTimeStorage := none }

/-- A terminated state with no stored best time. -/
def g0Terminated : GameState :=
  { stars := [], asteroids := [], player := playerStart 800 600,
    lastTime := 0, totalTime := 5, gameOver := true, bestTimeStorage := none }

/-- A terminated state whose stored best time is a nonempty non-numeric
string. -/
def g0Malformed : GameState :=
  { stars := [], asteroids := [], player := playerStart 800 600,
    lastTime := 0, totalTime := 5, gameOver := true,
    bestTimeStorage := some StoredVal.malformed }

/-- A player one step left of the wrap scenario position: holding right for
one frame puts it at `x = canvasWidth + 1 = 801`. -/
def playerNearRightEdge : Player :=
  { x := 796, y := 300, width := 50, height := 50, color := "red",
    speed := PLAYER_SPEED, dx := 0, dy := 0 }

/-- A player standing at `x = canvasWidth + width = 850`, inside the band
the wrap rule never touches. -/
def playerInRightBand : Player :=
  { x := 850, y := 300, width := 50, height := 50, color := "red",
    speed := PLAYER_SPEED, dx := 0, dy := 0 }

/-- The player after the displacement part of `Player.update` (lines
147-163), before `chkBounds`: the velocity recomputed from the controller
flags (`right` overwrites `left`, `down` overwrites `up`) added to the
position. -/
def displacedPlayer (p : Player) (ctrl : Controller) : Player :=
  let dx := if ctrl.right then p.speed else if ctrl.left then -p.speed else 0
  let dy := if ctrl.down then p.speed else if ctrl.up then -p.speed else 0
  { p with dx := dx, dy := dy, x := p.x + dx, y := p.y + dy }

/-- The spec's wording of the overlap test: each box is centered at its
entity's position and extended by half the width and half the height in
each direction, and the boxes overlap on both axes with strict inequality
on all four comparisons. -/
def specBoxesOverlap (a b : SpaceObject) : Prop :=
  (a.x - a.width / 2 < b.x + b.width / 2 ∧ b.x - b.width / 2 < a.x + a.width / 2) ∧
  (a.y - a.height / 2 < b.y + b.height / 2 ∧ b.y - b.height / 2 < a.y + a.height / 2)

/-! ## Theorems -/

/-- Claim C9: `intersects a b` is true iff the two axis-aligned bounding
boxes overlap on both axes with strict inequality on all four comparisons
(so touching edges do not intersect), and `intersects` is symmetric. -/
theorem intersects_strict_overlap_and_symm :
    (∀ a b : SpaceObject, a.intersects b = true ↔ specBoxesOverlap a b) ∧
    (∀ a b : SpaceObject,
      a.x + a.width / 2 = b.x - b.width / 2 → a.intersects b = false) ∧
    (∀ a b : SpaceObject, a.intersects b = b.intersects a) := by
  refine ⟨fun a b => ?_, fun a b h => ?_, fun a b => ?_⟩
  · simp only [SpaceObject.intersects, specBoxesOverlap, Bool.and_eq_true,
      decide_eq_true_eq]
    tauto
  · have key : ∀ x : Bool, ¬ x = true → x = false := by decide
    apply key
    simp only [SpaceObject.intersects, Bool.and_eq_true, decide_eq_true_eq]
    intro hcon
    obtain ⟨⟨⟨h1, h2⟩, h3⟩, h4⟩ := hcon
    rw [← h] at h2
    exact lt_irrefl _ h2
  · have key : ∀ x y : Bool, (x = true ↔ y = true) → x = y := by decide
    apply key
    simp only [SpaceObject.intersects, Bool.and_eq_true, decide_eq_true_eq]
    tauto

/-- `Player.update` is the displacement followed by the wrap check. -/
theorem Player.update_eq (p : Player) (ctrl : Controller) (W H : ℚ) :
    p.update ctrl W H = (displacedPlayer p ctrl).chkBounds W H := rfl

/-- What `chkBounds` does to each field, as a function of the four flags of
the incoming position (the flags are computed once, and the `exceedsLeft`
assignment runs after, hence overwrites, the `exceedsRight` one; likewise
`exceedsTop` after `exceedsBottom`). -/
theorem Player.chkBounds_fields (p : Player) (W H : ℚ) :
    (p.chkBounds W H).x = (if (p.toSpaceObject.outOfBounds W H).exceedsLeft then W
      else if (p.toSpaceObject.outOfBounds W H).exceedsRight then p.width * (-1)
      else p.x) ∧
    (p.chkBounds W H).y = (if (p.toSpaceObject.outOfBounds W H).exceedsTop then H
      else if (p.toSpaceObject.outOfBounds W H).exceedsBottom then p.height * (-1)
      else p.y) ∧
    (p.chkBounds W H).width = p.width ∧
    (p.chkBounds W H).height = p.height := by
  unfold Player.chkBounds
  by_cases hR : (p.toSpaceObject.outOfBounds W H).exceedsRight <;>
    by_cases hL : (p.toSpaceObject.outOfBounds W H).exceedsLeft <;>
      by_cases hB : (p.toSpaceObject.outOfBounds W H).exceedsBottom <;>
        by_cases hT : (p.toSpaceObject.outOfBounds W H).exceedsTop <;>
          simp [hR, hL, hB, hT]

/-- The pruning predicate is false exactly when all four flags are false. -/
theorem OobFlags.someTrue_eq_false_iff (f : OobFlags) :
    f.someTrue = false ↔
      f.exceedsRight = false ∧ f.exceedsLeft = false ∧
      f.exceedsBottom = false ∧ f.exceedsTop = false := by
  simp only [OobFlags.someTrue, Bool.or_eq_false_iff]
  tauto

/-- The four `outOfBounds` flags, read as inequalities on the position. -/
theorem outOfBounds_flags_iff (o : SpaceObject) (W H : ℚ) :
    ((o.outOfBounds W H).exceedsRight = false ↔ o.x ≤ W + o.width) ∧
    ((o.outOfBounds W H).exceedsLeft = false ↔ 0 - o.width ≤ o.x) ∧
    ((o.outOfBounds W H).exceedsBottom = false ↔ o.y ≤ H + o.height) ∧
    ((o.outOfBounds W H).exceedsTop = false ↔ 0 - o.height ≤ o.y) := by
  simp [SpaceObject.outOfBounds]

/-- Claim C5 (code bug): on an 800 by 600 viewport the LEFT spawn zone is
built with vertical span `canvas.width = 800` rather than the viewport
height 600, while the other three zones do span their viewport dimension;
each zone overlaps its edge by exactly one unit. -/
theorem spawnAreaLeft_spans_canvas_width :
    (spawnAreaLeft 800 600).height = 800 ∧
    (spawnAreaLeft 800 600).height ≠ 600 ∧
    (spawnAreaRight 800 600).height = 600 ∧
    (spawnAreaTop 800 600).width = 800 ∧
    (spawnAreaBottom 800 600).width = 800 ∧
    (spawnAreaLeft 800 600).x + (spawnAreaLeft 800 600).width = 1 ∧
    (spawnAreaRight 800 600).x = 800 - 1 ∧
    (spawnAreaTop 800 600).y + (spawnAreaTop 800 600).height = 1 ∧
    (spawnAreaBottom 800 600).y = 600 - 1 := by
  norm_num [spawnAreaLeft, spawnAreaRight, spawnAreaTop, spawnAreaBottom]

/-- Claim C6 counterexample: a player with the game's 50-unit width driven
to `x = canvasWidth + 1 = 801` by holding the right key does not wrap: the
right-exceeds flag requires `x > canvasWidth + width = 850`, so `x` stays
`801` and is not set to `-width = -50`. -/
theorem wrap_rule_silent_at_width_plus_one :
    (playerNearRightEdge.update ctrlRight 800 600).x = 801 ∧
    (playerNearRightEdge.update ctrlRight 800 600).x ≠ -50 := by
  norm_num [Player.update, Player.chkBounds, SpaceObject.outOfBounds,
    playerNearRightEdge, ctrlRight, PLAYER_SPEED]

/-- Claim C6 as amended: after the displacement, `chkBounds` applies
wrap-on-exit from the four flags of the displaced position: a true
right-exceeds flag (with left-exceeds false) sets `x` to `-width`, a true
left-exceeds flag sets `x` to the world width, and analogously on `y`; a
displaced position of `canvasWidth + width + 1` (one unit past the flag's
threshold, rather than `canvasWidth + 1`) therefore wraps to `-width`. -/
theorem wrap_on_exit_rules (p : Player) (ctrl : Controller) (W H : ℚ) :
    (((displacedPlayer p ctrl).toSpaceObject.outOfBounds W H).exceedsLeft = true →
      (p.update ctrl W H).x = W) ∧
    (((displacedPlayer p ctrl).toSpaceObject.outOfBounds W H).exceedsRight = true →
      ((displacedPlayer p ctrl).toSpaceObject.outOfBounds W H).exceedsLeft = false →
      (p.update ctrl W H).x = p.width * (-1)) ∧
    (((displacedPlayer p ctrl).toSpaceObject.outOfBounds W H).exceedsTop = true →
      (p.update ctrl W H).y = H) ∧
    (((displacedPlayer p ctrl).toSpaceObject.outOfBounds W H).exceedsBottom = true →
      ((displacedPlayer p ctrl).toSpaceObject.outOfBounds W H).exceedsTop = false →
      (p.update ctrl W H).y = p.height * (-1)) ∧
    (0 ≤ p.width → 0 ≤ W → (displacedPlayer p ctrl).x = W + p.width + 1 →
      (p.update ctrl W H).x = p.width * (-1)) := by
  obtain ⟨hx, hy, hw, hh⟩ :=
    Player.chkBounds_fields (displacedPlayer p ctrl) W H
  rw [Player.update_eq]
  have hwidth : (displacedPlayer p ctrl).width = p.width := rfl
  have hheight : (displacedPlayer p ctrl).height = p.height := rfl
  refine ⟨fun hL => ?_, fun hR hL => ?_, fun hT => ?_, fun hB hT => ?_,
    fun hpw hW hpos => ?_⟩
  · rw [hx, hL]
    simp
  · rw [hx, hL, hR]
    simp [hwidth]
  · rw [hy, hT]
    simp
  · rw [hy, hT, hB]
    simp [hheight]
  · have hR : ((displacedPlayer p ctrl).toSpaceObject.outOfBounds W H).exceedsRight
        = true := by
      simp only [SpaceObject.outOfBounds, decide_eq_true_eq]
      show (displacedPlayer p ctrl).x > W + (displacedPlayer p ctrl).width
      rw [hpos, hwidth]
      linarith
    have hL : ((displacedPlayer p ctrl).toSpaceObject.outOfBounds W H).exceedsLeft
        = false := by
      simp only [SpaceObject.outOfBounds, decide_eq_false_iff_not, not_lt]
      show 0 - (displacedPlayer p ctrl).width ≤ (displacedPlayer p ctrl).x
      rw [hpos, hwidth]
      linarith
    rw [hx, hL, hR]
    simp [hwidth]

/-- Claim C10 counterexample: starting from `x = 850` on an 800-wide world
with zero velocity, the update leaves the player at `x = 850`, outside the
claimed interval `[-width, worldWidth] = [-50, 800]`, even though all four
out-of-bounds flags are false. -/
theorem player_resting_outside_claimed_interval :
    (playerInRightBand.update ctrlNone 800 600).x = 850 ∧
    ¬ (playerInRightBand.update ctrlNone 800 600).x ≤ 800 ∧
    ((playerInRightBand.update ctrlNone 800
        600).toSpaceObject.outOfBounds 800 600).someTrue = false := by
  norm_num [Player.update, Player.chkBounds, SpaceObject.outOfBounds,
    OobFlags.someTrue, playerInRightBand, ctrlNone, PLAYER_SPEED]

/-- Claim C10 as amended: after `Player.update` (displacement then wrap
check) all four out-of-bounds flags are false for any starting position and
any controller state, given nonnegative world dimensions and entity size;
equivalently the position lies within `[-width, worldWidth + width]` by
`[-height, worldHeight + height]` (not `[-width, worldWidth]` by
`[-height, worldHeight]`); hence the player can never satisfy the culling
condition applied to stars and asteroids. -/
theorem player_update_never_out_of_bounds (p : Player) (ctrl : Controller)
    (W H : ℚ) (hw : 0 ≤ p.width) (hW : 0 ≤ W) (hh : 0 ≤ p.height) (hH : 0 ≤ H) :
    ((p.update ctrl W H).toSpaceObject.outOfBounds W H).someTrue = false ∧
    -p.width ≤ (p.update ctrl W H).x ∧ (p.update ctrl W H).x ≤ W + p.width ∧
    -p.height ≤ (p.update ctrl W H).y ∧ (p.update ctrl W H).y ≤ H + p.height := by
  obtain ⟨hx, hy, hwidth, hheight⟩ :=
    Player.chkBounds_fields (displacedPlayer p ctrl) W H
  rw [Player.update_eq]
  have hqw : (displacedPlayer p ctrl).width = p.width := rfl
  have hqh : (displacedPlayer p ctrl).height = p.height := rfl
  have hbx : -p.width ≤ ((displacedPlayer p ctrl).chkBounds W H).x ∧
      ((displacedPlayer p ctrl).chkBounds W H).x ≤ W + p.width := by
    rw [hx]
    by_cases hL : ((displacedPlayer p ctrl).toSpaceObject.outOfBounds W H).exceedsLeft
    · rw [if_pos hL]
      constructor <;> linarith
    · rw [if_neg hL]
      by_cases hR :
          ((displacedPlayer p ctrl).toSpaceObject.outOfBounds W H).exceedsRight
      · rw [if_pos hR]
        constructor <;> linarith
      · rw [if_neg hR]
        have h1 : ¬ ((displacedPlayer p ctrl).x > W + p.width) := by
          intro hgt
          apply hR
          simp only [SpaceObject.outOfBounds, decide_eq_true_eq]
          rw [show (displacedPlayer p ctrl).toSpaceObject.width = p.width from rfl]
          exact hgt
        have h2 : ¬ ((displacedPlayer p ctrl).x < 0 - p.width) := by
          intro hlt
          apply hL
          simp only [SpaceObject.outOfBounds, decide_eq_true_eq]
          rw [show (displacedPlayer p ctrl).toSpaceObject.width = p.width from rfl]
          exact hlt
        constructor <;> linarith
  have hby : -p.height ≤ ((displacedPlayer p ctrl).chkBounds W H).y ∧
      ((displacedPlayer p ctrl).chkBounds W H).y ≤ H + p.height := by
    rw [hy]
    by_cases hT : ((displacedPlayer p ctrl).toSpaceObject.outOfBounds W H).exceedsTop
    · rw [if_pos hT]
      constructor <;> linarith
    · rw [if_neg hT]
      by_cases hB :
          ((displacedPlayer p ctrl).toSpaceObject.outOfBounds W H).exceedsBottom
      · rw [if_pos hB]
        constructor <;> linarith
      · rw [if_neg hB]
        have h1 : ¬ ((displacedPlayer p ctrl).y > H + p.height) := by
          intro hgt
          apply hB
          simp only [SpaceObject.outOfBounds, decide_eq_true_eq]
          rw [show (displacedPlayer p ctrl).toSpaceObject.height = p.height from rfl]
          exact hgt
        have h2 : ¬ ((displacedPlayer p ctrl).y < 0 - p.height) := by
          intro hlt
          apply hT
          simp only [SpaceObject.outOfBounds, decide_eq_true_eq]
          rw [show (displacedPlayer p ctrl).toSpaceObject.height = p.height from rfl]
          exact hlt
        constructor <;> linarith
  refine ⟨?_, hbx.1, hbx.2, hby.1, hby.2⟩
  obtain ⟨fR, fL, fB, fT⟩ :=
    outOfBounds_flags_iff ((displacedPlayer p ctrl).chkBounds W H).toSpaceObject W H
  rw [OobFlags.someTrue_eq_false_iff]
  refine ⟨?_, ?_, ?_, ?_⟩
  · rw [fR]
    rw [show ((displacedPlayer p ctrl).chkBounds W H).toSpaceObject.width
      = p.width from hwidth.trans hqw]
    exact hbx.2
  · rw [fL]
    rw [show ((displacedPlayer p ctrl).chkBounds W H).toSpaceObject.width
      = p.width from hwidth.trans hqw]
    linarith [hbx.1]
  · rw [fB]
    rw [show ((displacedPlayer p ctrl).chkBounds W H).toSpaceObject.height
      = p.height from hheight.trans hqh]
    exact hby.2
  · rw [fT]
    rw [show ((displacedPlayer p ctrl).chkBounds W H).toSpaceObject.height
      = p.height from hheight.trans hqh]
    linarith [hby.1]

/-- Witness for the amended claim C10 at a concrete input: the starting
player on the 800 by 600 canvas with the right key held. -/
theorem player_update_never_out_of_bounds_witness :
    (0 : ℚ) ≤ (playerStart 800 600).width ∧ (0 : ℚ) ≤ 800 ∧
    (0 : ℚ) ≤ (playerStart 800 600).height ∧ (0 : ℚ) ≤ 600 ∧
    ((((playerStart 800 600).update ctrlRight 800 600).toSpaceObject.outOfBounds
        800 600).someTrue = false ∧
      -(playerStart 800 600).width ≤ ((playerStart 800 600).update ctrlRight 800 600).x ∧
      ((playerStart 800 600).update ctrlRight 800 600).x ≤ 800 + (playerStart 800 600).width ∧
      -(playerStart 800 600).height ≤ ((playerStart 800 600).update ctrlRight 800 600).y ∧
      ((playerStart 800 600).update ctrlRight 800 600).y ≤ 600 + (playerStart 800 600).height) :=
  ⟨by norm_num [playerStart], by norm_num, by norm_num [playerStart], by norm_num,
    player_update_never_out_of_bounds (playerStart 800 600) ctrlRight 800 600
      (by norm_num [playerStart]) (by norm_num) (by norm_num [playerStart])
      (by norm_num)⟩

/-- The `gameOver` branch touches nothing but the stored best time. -/
theorem gameOverStep_frame (g : GameState) :
    (gameOverStep g).stars = g.stars ∧ (gameOverStep g).asteroids = g.asteroids ∧
    (gameOverStep g).player = g.player ∧ (gameOverStep g).lastTime = g.lastTime ∧
    (gameOverStep g).totalTime = g.totalTime ∧
    (gameOverStep g).gameOver = g.gameOver := by
  obtain ⟨stars, asteroids, player, lastTime, totalTime, gameOver, storage⟩ := g
  cases storage with
  | none => simp [gameOverStep]
  | some stored =>
      by_cases ht : stored.truthy <;>
        by_cases hgt : numGtStored totalTime stored <;>
          simp [gameOverStep, ht, hgt]

/-- In the Terminated state `gameLoop` is exactly the `gameOver` branch. -/
theorem gameLoop_terminated (env : JsMath) (W H : ℚ) (ctrl : Controller)
    (t : ℚ) (r : FrameRand) (g : GameState) (hg : g.gameOver = true) :
    gameLoop env W H ctrl t r g = gameOverStep g := by
  unfold gameLoop
  rw [hg]
  simp

/-- After one pass through the `gameOver` branch the write condition is
always false: either the branch just stored `totalTime` (and
`totalTime > totalTime` fails), or it declined to overwrite (and the same
comparison keeps failing). -/
theorem writesBestTime_gameOverStep (g : GameState) :
    writesBestTime (gameOverStep g) = false := by
  obtain ⟨stars, asteroids, player, lastTime, totalTime, gameOver, storage⟩ := g
  cases storage with
  | none => simp [gameOverStep, writesBestTime, StoredVal.truthy, numGtStored]
  | some stored =>
      cases stored with
      | num v =>
          by_cases hgt : totalTime > v <;>
            simp [gameOverStep, writesBestTime, StoredVal.truthy, numGtStored, hgt]
      | malformed =>
          simp [gameOverStep, writesBestTime, StoredVal.truthy, numGtStored]
      | empty =>
          simp [gameOverStep, writesBestTime, StoredVal.truthy, numGtStored]

/-- When the write condition is false the `gameOver` branch is the
identity. -/
theorem gameOverStep_no_write (g : GameState) (h : writesBestTime g = false) :
    gameOverStep g = g := by
  obtain ⟨stars, asteroids, player, lastTime, totalTime, gameOver, storage⟩ := g
  cases storage with
  | none => simp [writesBestTime] at h
  | some stored =>
      cases stored with
      | num v =>
          simp only [writesBestTime, StoredVal.truthy, if_true] at h
          simp [gameOverStep, StoredVal.truthy, h]
      | malformed =>
          simp [gameOverStep, StoredVal.truthy, numGtStored]
      | empty =>
          simp [writesBestTime, StoredVal.truthy] at h

/-- A terminated state that would not write never writes again. -/
theorem countBestTimeWrites_eq_zero (env : JsMath) (W H : ℚ) (ctrl : Controller)
    (inputs : List (ℚ × FrameRand)) (g : GameState) (hg : g.gameOver = true)
    (h : writesBestTime g = false) :
    countBestTimeWrites env W H ctrl inputs g = 0 := by
  induction inputs generalizing g with
  | nil => rfl
  | cons p rest ih =>
      obtain ⟨t, r⟩ := p
      unfold countBestTimeWrites
      rw [hg, h]
      have hstep : gameLoop env W H ctrl t r g = g := by
        rw [gameLoop_terminated env W H ctrl t r g hg]
        exact gameOverStep_no_write g h
      rw [hstep]
      simpa using ih g hg h

/-- At most one best-time write happens along any run that starts
terminated. -/
theorem countBestTimeWrites_le_one (env : JsMath) (W H : ℚ) (ctrl : Controller)
    (inputs : List (ℚ × FrameRand)) (g : GameState) (hg : g.gameOver = true) :
    countBestTimeWrites env W H ctrl inputs g ≤ 1 := by
  cases inputs with
  | nil => simp [countBestTimeWrites]
  | cons p rest =>
      obtain ⟨t, r⟩ := p
      unfold countBestTimeWrites
      rw [gameLoop_terminated env W H ctrl t r g hg]
      have hg1 : (gameOverStep g).gameOver = true := by
        rw [(gameOverStep_frame g).2.2.2.2.2, hg]
      rw [countBestTimeWrites_eq_zero env W H ctrl rest (gameOverStep g) hg1
        (writesBestTime_gameOverStep g)]
      split <;> simp

/-- Claim C2: the Terminated state is absorbing.  A loop invocation in the
Terminated state creates, moves and removes no entity, leaves the elapsed
time unchanged and stays Terminated; invoking the loop twice in a row after
termination changes no entity between the two calls. -/
theorem terminated_state_absorbing (env : JsMath) (W H : ℚ)
    (ctrl1 ctrl2 : Controller) (t1 t2 : ℚ) (r1 r2 : FrameRand) (g : GameState)
    (hg : g.gameOver = true) :
    ((gameLoop env W H ctrl1 t1 r1 g).stars = g.stars ∧
     (gameLoop env W H ctrl1 t1 r1 g).asteroids = g.asteroids ∧
     (gameLoop env W H ctrl1 t1 r1 g).player = g.player ∧
     (gameLoop env W H ctrl1 t1 r1 g).totalTime = g.totalTime ∧
     (gameLoop env W H ctrl1 t1 r1 g).gameOver = true) ∧
    ((gameLoop env W H ctrl2 t2 r2 (gameLoop env W H ctrl1 t1 r1 g)).stars =
        (gameLoop env W H ctrl1 t1 r1 g).stars ∧
     (gameLoop env W H ctrl2 t2 r2 (gameLoop env W H ctrl1 t1 r1 g)).asteroids =
        (gameLoop env W H ctrl1 t1 r1 g).asteroids ∧
     (gameLoop env W H ctrl2 t2 r2 (gameLoop env W H ctrl1 t1 r1 g)).player =
        (gameLoop env W H ctrl1 t1 r1 g).player) := by
  have f1 := gameOverStep_frame g
  rw [gameLoop_terminated env W H ctrl1 t1 r1 g hg]
  have hg1 : (gameOverStep g).gameOver = true := by rw [f1.2.2.2.2.2, hg]
  rw [gameLoop_terminated env W H ctrl2 t2 r2 _ hg1]
  have f2 := gameOverStep_frame (gameOverStep g)
  exact ⟨⟨f1.1, f1.2.1, f1.2.2.1, f1.2.2.2.2.1, hg1⟩, f2.1, f2.2.1, f2.2.2.1⟩

/-- Witness for claim C2 at a concrete terminated state and two concrete
follow-up frames. -/
theorem terminated_state_absorbing_witness :
    g0Terminated.gameOver = true ∧
    (((gameLoop envZero 800 600 ctrlNone 1 frameRand0 g0Terminated).stars =
        g0Terminated.stars ∧
      (gameLoop envZero 800 600 ctrlNone 1 frameRand0 g0Terminated).asteroids =
        g0Terminated.asteroids ∧
      (gameLoop envZero 800 600 ctrlNone 1 frameRand0 g0Terminated).player =
        g0Terminated.player ∧
      (gameLoop envZero 800 600 ctrlNone 1 frameRand0 g0Terminated).totalTime =
        g0Terminated.totalTime ∧
      (gameLoop envZero 800 600 ctrlNone 1 frameRand0 g0Terminated).gameOver =
        true) ∧
     ((gameLoop envZero 800 600 ctrlRight 2 frameRand0
          (gameLoop envZero 800 600 ctrlNone 1 frameRand0 g0Terminated)).stars =
        (gameLoop envZero 800 600 ctrlNone 1 frameRand0 g0Terminated).stars ∧
      (gameLoop envZero 800 600 ctrlRight 2 frameRand0
          (gameLoop envZero 800 600 ctrlNone 1 frameRand0 g0Terminated)).asteroids =
        (gameLoop envZero 800 600 ctrlNone 1 frameRand0 g0Terminated).asteroids ∧
      (gameLoop envZero 800 600 ctrlRight 2 frameRand0
          (gameLoop envZero 800 600 ctrlNone 1 frameRand0 g0Terminated)).player =
        (gameLoop envZero 800 600 ctrlNone 1 frameRand0 g0Terminated).player)) :=
  ⟨rfl, terminated_state_absorbing envZero 800 600 ctrlNone ctrlRight 1 2
    frameRand0 frameRand0 g0Terminated rfl⟩

/-- Claim C3: at the termination transition the write policy is: write
unconditionally when no value is stored; with a stored numeric value,
overwrite exactly when the elapsed time exceeds it; and along any sequence
of further invocations after a termination, at most one write happens. -/
theorem bestTime_write_policy (env : JsMath) (W H : ℚ) (ctrl : Controller)
    (t : ℚ) (r : FrameRand) (g : GameState) (hg : g.gameOver = true) :
    (g.bestTimeStorage = none →
      (gameLoop env W H ctrl t r g).bestTimeStorage =
        some (StoredVal.num g.totalTime)) ∧
    (∀ v : ℚ, g.bestTimeStorage = some (StoredVal.num v) →
      (gameLoop env W H ctrl t r g).bestTimeStorage =
        (if g.totalTime > v then some (StoredVal.num g.totalTime)
         else some (StoredVal.num v))) ∧
    (∀ inputs : List (ℚ × FrameRand),
      countBestTimeWrites env W H ctrl inputs g ≤ 1) := by
  rw [gameLoop_terminated env W H ctrl t r g hg]
  refine ⟨fun hnone => ?_, fun v hnum => ?_, fun inputs =>
    countBestTimeWrites_le_one env W H ctrl inputs g hg⟩
  · unfold gameOverStep
    rw [hnone]
  · unfold gameOverStep
    rw [hnum]
    by_cases hgt : g.totalTime > v <;>
      simp [StoredVal.truthy, numGtStored, hgt, hnum]

/-- Witness for claim C3 at a terminated state with no stored best time. -/
theorem bestTime_write_policy_witness :
    g0Terminated.gameOver = true ∧
    ((g0Terminated.bestTimeStorage = none →
      (gameLoop envZero 800 600 ctrlNone 1 frameRand0 g0Terminated).bestTimeStorage =
        some (StoredVal.num g0Terminated.totalTime)) ∧
     (∀ v : ℚ, g0Terminated.bestTimeStorage = some (StoredVal.num v) →
      (gameLoop envZero 800 600 ctrlNone 1 frameRand0 g0Terminated).bestTimeStorage =
        (if g0Terminated.totalTime > v then some (StoredVal.num g0Terminated.totalTime)
         else some (StoredVal.num v))) ∧
     (∀ inputs : List (ℚ × FrameRand),
      countBestTimeWrites envZero 800 600 ctrlNone inputs g0Terminated ≤ 1)) :=
  ⟨rfl, bestTime_write_policy envZero 800 600 ctrlNone 1 frameRand0 g0Terminated rfl⟩

/-- Claim C4 counterexample: with a terminated state whose stored best time
is a nonempty non-numeric string, the elapsed time (5) is NOT written — the
malformed value survives — contradicting the claim that malformed data is
treated as absent and overwritten unconditionally. -/
theorem malformed_bestTime_blocks_write :
    (gameLoop envZero 800 600 ctrlNone 1 frameRand0 g0Malformed).bestTimeStorage =
      some StoredVal.malformed ∧
    (gameLoop envZero 800 600 ctrlNone 1 frameRand0 g0Malformed).bestTimeStorage ≠
      some (StoredVal.num 5) := by
  constructor <;>
    simp [gameLoop, g0Malformed, gameOverStep, StoredVal.truthy, numGtStored,
      playerStart]

/-- Claim C4 as amended: a malformed (nonempty, non-numeric) stored best
time does not propagate a fault, but it is not treated as absent either:
the `totalTime > bestTime` comparison is false against it, so no write
happens and the state is completely unchanged; only an absent value — or
the empty string, which is falsy — triggers the unconditional write. -/
theorem malformed_bestTime_policy (env : JsMath) (W H : ℚ) (ctrl : Controller)
    (t : ℚ) (r : FrameRand) (g : GameState) (hg : g.gameOver = true) :
    (g.bestTimeStorage = some StoredVal.malformed →
      gameLoop env W H ctrl t r g = g) ∧
    (g.bestTimeStorage = some StoredVal.empty →
      (gameLoop env W H ctrl t r g).bestTimeStorage =
        some (StoredVal.num g.totalTime)) := by
  rw [gameLoop_terminated env W H ctrl t r g hg]
  constructor <;> intro hs
  · apply gameOverStep_no_write
    unfold writesBestTime
    rw [hs]
    simp [StoredVal.truthy, numGtStored]
  · unfold gameOverStep
    rw [hs]
    simp [StoredVal.truthy]

/-- Witness for the amended claim C4 at a concrete malformed stored value. -/
theorem malformed_bestTime_policy_witness :
    g0Malformed.gameOver = true ∧
    ((g0Malformed.bestTimeStorage = some StoredVal.malformed →
      gameLoop envZero 800 600 ctrlNone 1 frameRand0 g0Malformed = g0Malformed) ∧
     (g0Malformed.bestTimeStorage = some StoredVal.empty →
      (gameLoop envZero 800 600 ctrlNone 1 frameRand0 g0Malformed).bestTimeStorage =
        some (StoredVal.num g0Malformed.totalTime))) :=
  ⟨rfl, malformed_bestTime_policy envZero 800 600 ctrlNone 1 frameRand0
    g0Malformed rfl⟩

/-- Claim C1: in the Running state the Running to Terminated transition
fires in a frame iff, after all movement and pruning of that frame, the
player's bounding box strictly intersects the box of at least one asteroid
still live in the post-frame state. -/
theorem running_termination_iff (env : JsMath) (W H : ℚ) (ctrl : Controller)
    (t : ℚ) (r : FrameRand) (g : GameState) (hg : g.gameOver = false) :
    (gameLoop env W H ctrl t r g).gameOver = true ↔
      ∃ a ∈ (gameLoop env W H ctrl t r g).asteroids,
        (gameLoop env W H ctrl t r g).player.toSpaceObject.intersects
          a.toSpaceObject = true := by
  unfold gameLoop
  rw [hg]
  simp only [Bool.false_eq_true, if_false]
  unfold runningStep
  simp only [List.any_eq_true]

/-- Witness for claim C1: one concrete running frame from the fresh state
(the freshly spawned asteroid sits at the far edge of the LEFT zone and is
pruned the same frame, so the frame ends still Running with no asteroid). -/
theorem running_termination_iff_witness :
    g0Running.gameOver = false ∧
    ((gameLoop envZero 800 600 ctrlNone 0 frameRand0 g0Running).gameOver = true ↔
      ∃ a ∈ (gameLoop envZero 800 600 ctrlNone 0 frameRand0 g0Running).asteroids,
        (gameLoop envZero 800 600 ctrlNone 0 frameRand0 g0Running).player.toSpaceObject.intersects
          a.toSpaceObject = true) :=
  ⟨rfl, running_termination_iff envZero 800 600 ctrlNone 0 frameRand0 g0Running rfl⟩

/-- How the asteroid replenishment check changes the collection size. -/
theorem spawnCheck_length (env : JsMath) (W H T : ℚ) (z : Fin 4) (r : SpawnRand)
    (asteroids : List Asteroid) :
    (spawnCheck env W H T z r asteroids).length =
      (if (asteroids.length : ℚ) <
          ASTEROIDS_ON_SCREEN + T / 1000 * ASTEROIDS_OVER_TIME
       then asteroids.length + 1 else asteroids.length) := by
  unfold spawnCheck
  split <;> simp

/-- How the star replenishment check changes the collection size. -/
theorem starCheck_length (env : JsMath) (W H rx ry ra : ℚ) (stars : List Star) :
    (starCheck env W H rx ry ra stars).length =
      (if (stars.length : ℚ) < STAR_COUNT then stars.length + 1
       else stars.length) := by
  unfold starCheck
  split <;> simp

/-- Claim C7: the spawn threshold is
`ASTEROIDS_ON_SCREEN + elapsedSeconds * ASTEROIDS_OVER_TIME` (with
`elapsedSeconds = totalTime / 1000`); it is monotone in elapsed time,
equals 10 at t = 0 ms and 13 at t = 10000 ms; the check spawns exactly one
asteroid below the threshold and none otherwise, so a running frame grows
the asteroid collection by at most one. -/
theorem asteroid_spawn_threshold (env : JsMath) (W H T : ℚ) (z : Fin 4)
    (r : SpawnRand) (asteroids : List Asteroid) :
    (∀ t1 t2 : ℚ, t1 ≤ t2 →
      ASTEROIDS_ON_SCREEN + t1 / 1000 * ASTEROIDS_OVER_TIME ≤
        ASTEROIDS_ON_SCREEN + t2 / 1000 * ASTEROIDS_OVER_TIME) ∧
    ASTEROIDS_ON_SCREEN + (0 : ℚ) / 1000 * ASTEROIDS_OVER_TIME = 10 ∧
    ASTEROIDS_ON_SCREEN + (10000 : ℚ) / 1000 * ASTEROIDS_OVER_TIME = 13 ∧
    (spawnCheck env W H T z r asteroids).length =
      (if (asteroids.length : ℚ) <
          ASTEROIDS_ON_SCREEN + T / 1000 * ASTEROIDS_OVER_TIME
       then asteroids.length + 1 else asteroids.length) ∧
    (¬ (asteroids.length : ℚ) <
        ASTEROIDS_ON_SCREEN + T / 1000 * ASTEROIDS_OVER_TIME →
      spawnCheck env W H T z r asteroids = asteroids) ∧
    (∀ (ctrl : Controller) (t : ℚ) (fr : FrameRand) (g : GameState),
      g.gameOver = false →
      (gameLoop env W H ctrl t fr g).asteroids.length ≤
        g.asteroids.length + 1) := by
  refine ⟨fun t1 t2 h => ?_, by norm_num [ASTEROIDS_ON_SCREEN, ASTEROIDS_OVER_TIME],
    by norm_num [ASTEROIDS_ON_SCREEN, ASTEROIDS_OVER_TIME],
    spawnCheck_length env W H T z r asteroids, fun hge => ?_,
    fun ctrl t fr g hg => ?_⟩
  · unfold ASTEROIDS_OVER_TIME
    linarith
  · unfold spawnCheck
    rw [if_neg hge]
  · unfold gameLoop
    rw [hg]
    simp only [Bool.false_eq_true, if_false]
    unfold runningStep
    simp only []
    calc ((spawnCheck env W H (g.totalTime + (t - g.lastTime)) fr.zoneChoice fr.spawn
            (g.asteroids.map (Asteroid.update env))).filter
            (fun a => !(a.toSpaceObject.outOfBounds W H).someTrue)).length
        ≤ (spawnCheck env W H (g.totalTime + (t - g.lastTime)) fr.zoneChoice fr.spawn
            (g.asteroids.map (Asteroid.update env))).length :=
          List.length_filter_le _ _
      _ ≤ (g.asteroids.map (Asteroid.update env)).length + 1 := by
          rw [spawnCheck_length]
          split <;> simp
      _ = g.asteroids.length + 1 := by rw [List.length_map]

/-- Claim C8: in a running frame exactly one star is created when the star
count is strictly below `STAR_COUNT` and none otherwise; consequently the
star collection grows by at most one per frame and never grows when at or
above the target. -/
theorem star_replenish_policy (env : JsMath) (W H rx ry ra : ℚ)
    (stars : List Star) :
    ((stars.length : ℚ) < STAR_COUNT →
      (starCheck env W H rx ry ra stars).length = stars.length + 1) ∧
    (¬ (stars.length : ℚ) < STAR_COUNT →
      starCheck env W H rx ry ra stars = stars) ∧
    (∀ (ctrl : Controller) (t : ℚ) (r : FrameRand) (g : GameState),
      g.gameOver = false →
      (gameLoop env W H ctrl t r g).stars.length ≤ g.stars.length + 1 ∧
      (STAR_COUNT ≤ (g.stars.length : ℚ) →
        (gameLoop env W H ctrl t r g).stars.length ≤ g.stars.length)) := by
  refine ⟨fun hlt => ?_, fun hge => ?_, fun ctrl t r g hg => ?_⟩
  · rw [starCheck_length, if_pos hlt]
  · unfold starCheck
    rw [if_neg hge]
  · unfold gameLoop
    rw [hg]
    simp only [Bool.false_eq_true, if_false]
    unfold runningStep
    simp only []
    constructor
    · calc ((starCheck env W H r.starX r.starY r.starAngle
              (g.stars.map (Star.update env))).filter
              (fun s => !(s.toSpaceObject.outOfBounds W H).someTrue)).length
          ≤ (starCheck env W H r.starX r.starY r.starAngle
              (g.stars.map (Star.update env))).length :=
            List.length_filter_le _ _
        _ ≤ (g.stars.map (Star.update env)).length + 1 := by
            rw [starCheck_length]
            split <;> simp
        _ = g.stars.length + 1 := by rw [List.length_map]
    · intro hge
      have hmap : (g.stars.map (Star.update env)).length = g.stars.length :=
        List.length_map _ _
      have hnot : ¬ ((g.stars.map (Star.update env)).length : ℚ) < STAR_COUNT := by
        rw [hmap]
        exact not_lt.2 hge
      calc ((starCheck env W H r.starX r.starY r.starAngle
              (g.stars.map (Star.update env))).filter
              (fun s => !(s.toSpaceObject.outOfBounds W H).someTrue)).length
          ≤ (starCheck env W H r.starX r.starY r.starAngle
              (g.stars.map (Star.update env))).length :=
            List.length_filter_le _ _
        _ = (g.stars.map (Star.update env)).length := by
            rw [starCheck_length, if_neg hnot]
        _ = g.stars.length := hmap

end AsteroidsGame
